import Mathlib

/-!
Shallow embedding of src/src/lib.rs of the psd crate: the Psd document
structure, its construction from the four major sections, its accessors, and
the layer compositor (flatten_layers_rgba / flattened_pixel).  Code of this
repository that lives in modules not present under src (the section parsers,
the blend helpers and the per-layer channel composer) is modelled from the
specification; every such definition carries a doc comment saying so.
-/

/-- An RGBA pixel with components 0–255, modelling the Rust value [u8; 4]
used throughout the compositor. -/
structure Pix where
  r : Nat
  g : Nat
  b : Nat
  a : Nat
deriving DecidableEq

/-- The fully transparent pixel, the Rust value [0; 4]. -/
def Pix.transparent : Pix := ⟨0, 0, 0, 0⟩

/-- Read the four bytes of one pixel starting at byte index idx of an RGBA
byte buffer, modelling the slice-and-copy of layer_rgba[start..end] at
lib.rs lines 322–328 (an out-of-range read, which would panic in Rust, is
totalised to 0; no claim exercises it). -/
def read_pixel (buf : List Nat) (idx : Nat) : Pix :=
  ⟨buf.getD idx 0, buf.getD (idx + 1) 0, buf.getD (idx + 2) 0, buf.getD (idx + 3) 0⟩

/-- Modelled from the spec: blend::apply_opacity (module blend is not under
src).  Per spec §4.7 the pixel alpha is scaled linearly by the layer opacity:
alpha is replaced by alpha * opacity / 255; the color channels are untouched. -/
def apply_opacity (pixel : Pix) (opacity : Nat) : Pix :=
  { pixel with a := pixel.a * opacity / 255 }

/-- Modelled from the spec: blend::blend_pixels (module blend is not under
src).  Per spec §4.7 this is standard source-over alpha compositing of the
top pixel onto the pixel below, independent of the declared blend-mode tag
(the tag parameter is accepted, as in the Rust signature, and ignored). -/
def blend_pixels (top bottom : Pix) (blend_mode : Nat) : Pix :=
  let aT := top.a
  let aB := bottom.a
  let aO := aT + aB * (255 - aT) / 255
  let comp := fun (cT cB : Nat) =>
    if aO = 0 then 0 else (cT * aT + cB * (aB * (255 - aT) / 255)) / aO
  ⟨comp top.r bottom.r, comp top.g bottom.g, comp top.b bottom.b, aO⟩

/-- Modelled from the spec: FileHeaderSectionError (module sections is not
under src).  Spec §4.1–§4.2, §7: bad signature, bad version, bad field value,
truncated data. -/
inductive FileHeaderSectionError where
  | InvalidSignature
  | InvalidVersion
  | InvalidField
  | Truncated
deriving DecidableEq

/-- Modelled from the spec: PsdLayerError (module sections is not under src).
Spec §4.4, §7: malformed per-layer records, unbalanced group markers,
truncated channel tables. -/
inductive PsdLayerError where
  | MalformedRecord
  | UnbalancedGroupMarkers
  | TruncatedChannelTable
deriving DecidableEq

/-- Modelled from the spec: ImageDataSectionError (module sections is not
under src).  Spec §4.5, §7: decompression length mismatch, unsupported
compression tag. -/
inductive ImageDataSectionError where
  | DecompressionLengthMismatch
  | UnsupportedCompression
deriving DecidableEq

/-- Modelled from the spec: ImageResourcesSectionError (module sections is
not under src).  Spec §4.3, §7: malformed resource block framing, wrong block
signature. -/
inductive ImageResourcesSectionError where
  | MalformedBlockFraming
  | InvalidBlockSignature
deriving DecidableEq

/-- The typed top-level error enum of lib.rs lines 43–58: one variant per
failing section, each wrapping that section's own error. -/
inductive PsdError where
  | HeaderError (e : FileHeaderSectionError)
  | LayerError (e : PsdLayerError)
  | ImageError (e : ImageDataSectionError)
  | ResourceError (e : ImageResourcesSectionError)
deriving DecidableEq

/-- Modelled from the spec: FileHeaderSection (module sections is not under
src).  Spec §3: canvas width and height, bits-per-channel depth, channel
count and color mode; the Rust newtype wrappers (width.0, height.0,
channel_count.count()) are flattened to plain naturals. -/
structure FileHeaderSection where
  width : Nat
  height : Nat
  depth : Nat
  channel_count : Nat
  color_mode : Nat
deriving DecidableEq

/-- A single layer as the compositor sees it.  Modelled from the spec where
the fields live in modules not under src (spec §3: name, canvas-relative
bounding rectangle, opacity 0–255, visibility flag, clipping-mask flag,
blend-mode tag); the Rust layer_properties sub-struct is flattened into this
structure.  The rgba field is the layer's composed canvas-indexed RGBA byte
buffer: spec §4.6's channel composer is not under src, so the composed buffer
is carried abstractly (lib.rs reads it via layer.rgba() and indexes it with
canvas-wide pixel indices at line 322). -/
structure PsdLayer where
  name : String
  layer_top : Nat
  layer_left : Nat
  layer_bottom : Nat
  layer_right : Nat
  visible : Bool
  opacity : Nat
  clipping_mask : Bool
  blend_mode : Nat
  rgba : List Nat
deriving DecidableEq

/-- The layer-and-mask section as used by lib.rs: the ordered layer list,
index 0 = bottom-most (the group map is not touched by any accessor the
claims concern and is omitted). -/
structure LayerAndMaskInformationSection where
  layers : List PsdLayer
deriving DecidableEq

/-- The image-data section as used by lib.rs: the compression tag plus the
composed whole-canvas RGBA buffer.  Modelled from the spec: generate_rgba()
(spec §4.6) lives in a module not under src, so the section carries its
composed result abstractly. -/
structure ImageDataSection where
  compression : Nat
  rgba : List Nat
deriving DecidableEq

/-- An image resource record: id plus payload bytes (spec §3). -/
structure ImageResource where
  resource_id : Nat
  data : List Nat
deriving DecidableEq

/-- The image-resources section: the ordered resource list (spec §3). -/
structure ImageResourcesSection where
  resources : List ImageResource
deriving DecidableEq

/-- The four major byte spans cut out of the file, as consumed by
Psd::from_bytes (lib.rs lines 87–113).  Modelled from the spec:
MajorSections lives in a module not under src (spec §4.1). -/
structure MajorSections where
  file_header : List Nat
  image_resources : List Nat
  layer_and_mask : List Nat
  image_data : List Nat

/-- The contents of a PSD file: the four sections, exactly the fields of the
Rust struct Psd (lib.rs lines 67–72). -/
structure Psd where
  file_header_section : FileHeaderSection
  image_resources_section : ImageResourcesSection
  layer_and_mask_information_section : LayerAndMaskInformationSection
  image_data_section : ImageDataSection
deriving DecidableEq

/-- The five section parsers called by Psd::from_bytes.  All of them live in
modules not under src, so they are carried as opaque-function parameters;
only their composition in from_bytes is code under src.  The argument lists
follow the Rust call sites (lib.rs lines 87–113). -/
structure SectionParsers where
  majorSections : List Nat → Except FileHeaderSectionError MajorSections
  fileHeader : List Nat → Except FileHeaderSectionError FileHeaderSection
  layerAndMask : List Nat → Nat → Nat → Except PsdLayerError LayerAndMaskInformationSection
  imageData : List Nat → Nat → Nat → Nat → Except ImageDataSectionError ImageDataSection
  imageResources : List Nat → Except ImageResourcesSectionError ImageResourcesSection

/-- Psd::from_bytes (lib.rs lines 86–121): run the five parsers in order,
mapping each failure into its PsdError variant with the Rust map_err calls;
assemble the document only when every section parsed. -/
def Psd.from_bytes (P : SectionParsers) (bytes : List Nat) : Except PsdError Psd :=
  match P.majorSections bytes with
  | .error e => .error (PsdError.HeaderError e)
  | .ok major_sections =>
    match P.fileHeader major_sections.file_header with
    | .error e => .error (PsdError.HeaderError e)
    | .ok file_header_section =>
      let psd_width := file_header_section.width
      let psd_height := file_header_section.height
      let channel_count := file_header_section.channel_count
      match P.layerAndMask major_sections.layer_and_mask psd_width psd_height with
      | .error e => .error (PsdError.LayerError e)
      | .ok layer_and_mask_information_section =>
        match P.imageData major_sections.image_data file_header_section.depth psd_height
            channel_count with
        | .error e => .error (PsdError.ImageError e)
        | .ok image_data_section =>
          match P.imageResources major_sections.image_resources with
          | .error e => .error (PsdError.ResourceError e)
          | .ok image_resources_section =>
            .ok { file_header_section := file_header_section
                  image_resources_section := image_resources_section
                  layer_and_mask_information_section := layer_and_mask_information_section
                  image_data_section := image_data_section }

/-- Psd::width (lib.rs line 127). -/
def Psd.width (psd : Psd) : Nat := psd.file_header_section.width

/-- Psd::height (lib.rs line 132). -/
def Psd.height (psd : Psd) : Nat := psd.file_header_section.height

/-- Psd::layers (lib.rs line 150): the ordered layer list, index 0 bottom. -/
def Psd.layers (psd : Psd) : List PsdLayer :=
  psd.layer_and_mask_information_section.layers

/-- Psd::rgba (lib.rs line 364): the composed whole-canvas RGBA buffer. -/
def Psd.rgba (psd : Psd) : List Nat := psd.image_data_section.rgba

/-- Psd::layer_by_idx (lib.rs lines 164–169): layers.get(idx).unwrap().  The
Rust unwrap panics when idx is out of range; the panic is modelled as none,
an in-range access as some of the layer at that stacking position. -/
def Psd.layer_by_idx (psd : Psd) (idx : Nat) : Option PsdLayer :=
  psd.layers[idx]?

/-- Lookup in the per-call memoization table, modelling
cached_layer_rgba.borrow().get(&idx) on the RefCell<HashMap<usize, Vec<u8>>>
of lib.rs line 241 (the map is embedded as an association list, latest
insertion first). -/
def cache_lookup (idx : Nat) : List (Nat × List Nat) → Option (List Nat)
  | [] => none
  | (k, v) :: rest => if k = idx then some v else cache_lookup idx rest

/-- Psd::flattened_pixel (lib.rs lines 272–357), with the RefCell cache made
an explicit in/out value.  The index/slice walk of the Rust code is embedded
as a walk down the remaining top-down suffix of the candidate list: the Rust
guard flattened_layer_top_down_idx + 1 < layers_to_flatten_top_down.len() is
the suffix being non-empty, and layers_to_flatten_top_down[idx].1 is the head
of the suffix.  idx is kept as the cache key exactly as in the source.  The
empty-suffix entry models the index-out-of-range panic of line 281, which no
caller reaches. -/
def flattened_pixel (psd : Psd) :
    Nat → Nat × Nat → List (Nat × PsdLayer) → List (Nat × List Nat) →
      Pix × List (Nat × List Nat)
  | _, _, [], cached_layer_rgba => (Pix.transparent, cached_layer_rgba)
  | flattened_layer_top_down_idx, pixel_coord, (_, layer) :: lower, cached_layer_rgba =>
    let pixel_left := pixel_coord.1
    let pixel_top := pixel_coord.2
    -- lib.rs lines 287–302: out of bounds of this layer: use the layer below,
    -- or a transparent pixel when none remains.
    if pixel_left < layer.layer_left ∨ pixel_left > layer.layer_right
        ∨ pixel_top < layer.layer_top ∨ pixel_top > layer.layer_bottom then
      match lower with
      | [] => (Pix.transparent, cached_layer_rgba)
      | _ :: _ =>
        flattened_pixel psd (flattened_layer_top_down_idx + 1) pixel_coord lower
          cached_layer_rgba
    else
      -- lib.rs lines 305–316: memoize this layer's RGBA on first use.
      let cache1 :=
        if (cache_lookup flattened_layer_top_down_idx cached_layer_rgba).isNone then
          (flattened_layer_top_down_idx, layer.rgba) :: cached_layer_rgba
        else cached_layer_rgba
      -- lib.rs lines 318–332: read the pixel from the cached buffer and scale
      -- its alpha by the layer opacity.
      let layer_rgba := (cache_lookup flattened_layer_top_down_idx cache1).getD []
      let pixel_idx := (psd.width * pixel_top + pixel_left) * 4
      let pixel := apply_opacity (read_pixel layer_rgba pixel_idx) layer.opacity
      -- lib.rs lines 334–356: fully opaque short-circuit, else blend with the
      -- resolution of everything below.
      if pixel.a = 255 ∧ layer.opacity = 255 then
        (pixel, cache1)
      else
        match lower with
        | [] => (pixel, cache1)
        | _ :: _ =>
          let below :=
            flattened_pixel psd (flattened_layer_top_down_idx + 1) pixel_coord lower cache1
          (blend_pixels pixel below.1 layer.blend_mode, below.2)

/-- Cache-free counterpart of flattened_pixel: reads each layer's RGBA buffer
directly instead of through the memo table.  Used to state that the per-call
cache is semantically inert. -/
def flattened_pixel_nocache (psd : Psd) :
    Nat × Nat → List (Nat × PsdLayer) → Pix
  | _, [] => Pix.transparent
  | pixel_coord, (_, layer) :: lower =>
    let pixel_left := pixel_coord.1
    let pixel_top := pixel_coord.2
    if pixel_left < layer.layer_left ∨ pixel_left > layer.layer_right
        ∨ pixel_top < layer.layer_top ∨ pixel_top > layer.layer_bottom then
      match lower with
      | [] => Pix.transparent
      | _ :: _ => flattened_pixel_nocache psd pixel_coord lower
    else
      let pixel_idx := (psd.width * pixel_top + pixel_left) * 4
      let pixel := apply_opacity (read_pixel layer.rgba pixel_idx) layer.opacity
      if pixel.a = 255 ∧ layer.opacity = 255 then
        pixel
      else
        match lower with
        | [] => pixel
        | _ :: _ =>
          blend_pixels pixel (flattened_pixel_nocache psd pixel_coord lower) layer.blend_mode

/-- The in-bounds branch of flattened_pixel (lib.rs lines 304–356), as one
value: memoize this layer's RGBA on first use, read the pixel from the
layer's buffer, scale its alpha by the layer opacity, then either
short-circuit on full opacity or blend with the resolution of everything
below.  flattened_pixel is proved to reduce to this whenever the pixel lies
inside the layer's (inclusive) bounds and the memo table is consistent at
this key. -/
def resolve_from_this_layer (psd : Psd) (idx : Nat) (layer : PsdLayer)
    (lower : List (Nat × PsdLayer)) (cache : List (Nat × List Nat)) (pl pt : Nat) :
    Pix × List (Nat × List Nat) :=
  let cache1 :=
    if (cache_lookup idx cache).isNone then (idx, layer.rgba) :: cache else cache
  let pixel := apply_opacity (read_pixel layer.rgba ((psd.width * pt + pl) * 4)) layer.opacity
  if pixel.a = 255 ∧ layer.opacity = 255 then
    (pixel, cache1)
  else
    match lower with
    | [] => (pixel, cache1)
    | _ :: _ =>
      let below := flattened_pixel psd (idx + 1) (pl, pt) lower cache1
      (blend_pixels pixel below.1 layer.blend_mode, below.2)

/-- The filtered candidate list of lib.rs lines 220–227: enumerate the layer
list (index 0 = bottom-most), keep layers with (opacity > 0 and visible) or
the clipping-mask flag, then apply the caller filter.  The source name is
kept; note that the source builds this list without reversing it, so its
first element is the surviving layer with the LOWEST stacking index. -/
def layers_to_flatten_top_to_bottom (psd : Psd) (filter : Nat × PsdLayer → Bool) :
    List (Nat × PsdLayer) :=
  ((psd.layers.enum.filter
      (fun p => (decide (p.2.opacity > 0) && p.2.visible) || p.2.clipping_mask)).filter
    filter)

/-- The per-pixel loop of lib.rs lines 247–263: walk pixel_idx over the
canvas in row-major order, resolving each pixel from candidate position 0 and
threading the memo table through the whole call; push the four bytes of each
resolved pixel. -/
def flatten_pixels (psd : Psd) (layers : List (Nat × PsdLayer)) :
    Nat → Nat → List (Nat × List Nat) → List Nat
  | _, 0, _ => []
  | pixel_idx, remaining + 1, cached_layer_rgba =>
    let left := pixel_idx % psd.width
    let top := pixel_idx / psd.width
    let blended := flattened_pixel psd 0 (left, top) layers cached_layer_rgba
    blended.1.r :: blended.1.g :: blended.1.b :: blended.1.a ::
      flatten_pixels psd layers (pixel_idx + 1) remaining blended.2

/-- Psd::flatten_layers_rgba (lib.rs lines 205–266): no layers at all returns
the whole-canvas RGBA; an empty filtered set returns a transparent
canvas-sized buffer; otherwise every canvas pixel is resolved down the
filtered candidate list, with the memo table created fresh inside the call
(the RefCell of line 241 becomes the initial empty cache). -/
def flatten_layers_rgba (psd : Psd) (filter : Nat × PsdLayer → Bool) :
    Except PsdError (List Nat) :=
  if psd.layers.isEmpty then
    .ok psd.rgba
  else
    let layers_to_flatten := layers_to_flatten_top_to_bottom psd filter
    let pixel_count := psd.width * psd.height
    if layers_to_flatten.isEmpty then
      .ok (List.replicate (pixel_count * 4) 0)
    else
      .ok (flatten_pixels psd layers_to_flatten 0 pixel_count [])

/-- Cache-free counterpart of the per-pixel loop. -/
def flatten_pixels_nocache (psd : Psd) (layers : List (Nat × PsdLayer)) :
    Nat → Nat → List Nat
  | _, 0 => []
  | pixel_idx, remaining + 1 =>
    let left := pixel_idx % psd.width
    let top := pixel_idx / psd.width
    let blended := flattened_pixel_nocache psd (left, top) layers
    blended.r :: blended.g :: blended.b :: blended.a ::
      flatten_pixels_nocache psd layers (pixel_idx + 1) remaining

/-- Cache-free counterpart of flatten_layers_rgba: the same branching with
the memo table elided.  flatten_layers_rgba is proved to coincide with it,
which is the sense in which the per-call cache neither changes the output nor
leaks between calls. -/
def flatten_layers_rgba_nocache (psd : Psd) (filter : Nat × PsdLayer → Bool) :
    Except PsdError (List Nat) :=
  if psd.layers.isEmpty then
    .ok psd.rgba
  else
    let layers_to_flatten := layers_to_flatten_top_to_bottom psd filter
    let pixel_count := psd.width * psd.height
    if layers_to_flatten.isEmpty then
      .ok (List.replicate (pixel_count * 4) 0)
    else
      .ok (flatten_pixels_nocache psd layers_to_flatten 0 pixel_count)

/-- The memo table is consistent with the candidate list: every stored buffer
is the RGBA buffer of the layer at its key's position. -/
def CacheOk (L : List (Nat × PsdLayer)) (cache : List (Nat × List Nat)) : Prop :=
  ∀ j buf, cache_lookup j cache = some buf →
    ∃ h : j < L.length, buf = (L.get ⟨j, h⟩).2.rgba

/-- Fixture: a 1×1 RGB canvas header shared by the concrete evaluation
theorems below. -/
def header1x1 : FileHeaderSection := ⟨1, 1, 8, 4, 3⟩

/-- Fixture: a fully opaque, visible red layer covering the 1×1 canvas. -/
def bottomRed : PsdLayer :=
  ⟨"bottom red", 0, 0, 1, 1, true, 255, false, 0, [255, 0, 0, 255]⟩

/-- Fixture: a fully opaque, visible green layer covering the 1×1 canvas. -/
def topGreen : PsdLayer :=
  ⟨"top green", 0, 0, 1, 1, true, 255, false, 0, [0, 255, 0, 255]⟩

/-- Fixture: a document whose layer list is bottom red (index 0) under top
green (index 1). -/
def psdC1 : Psd := ⟨header1x1, ⟨[]⟩, ⟨[bottomRed, topGreen]⟩, ⟨0, [0, 0, 0, 0]⟩⟩

/-- Fixture: an opaque visible red layer whose bounding rectangle is
degenerate: left = right = 0 and top = bottom = 0. -/
def degRed : PsdLayer :=
  ⟨"degenerate red", 0, 0, 0, 0, true, 255, false, 0, [255, 0, 0, 255]⟩

/-- Fixture: a document whose only layer is the degenerate-rectangle layer. -/
def psdDeg : Psd := ⟨header1x1, ⟨[]⟩, ⟨[degRed]⟩, ⟨0, [0, 0, 0, 0]⟩⟩

/-- Fixture: a 1×2 RGB canvas header (width 1, height 2). -/
def header1x2 : FileHeaderSection := ⟨1, 2, 8, 4, 3⟩

/-- Fixture: a 2×1 RGB canvas header (width 2, height 1). -/
def header2x1 : FileHeaderSection := ⟨2, 1, 8, 4, 3⟩

/-- Fixture: a layer degenerate in x only: left = right = 0 with
top = 0 < bottom = 1; red at row 0, blue at row 1. -/
def degColumn : PsdLayer :=
  ⟨"degenerate column", 0, 0, 1, 0, true, 255, false, 0,
    [255, 0, 0, 255, 0, 0, 255, 255]⟩

/-- Fixture: a 1×2 canvas document whose only layer is the x-degenerate
column layer. -/
def psdDegCol : Psd :=
  ⟨header1x2, ⟨[]⟩, ⟨[degColumn]⟩, ⟨0, [0, 0, 0, 0, 0, 0, 0, 0]⟩⟩

/-- Fixture: a layer degenerate in y only: top = bottom = 0 with
left = 0 < right = 1; red at column 0, green at column 1. -/
def degRow : PsdLayer :=
  ⟨"degenerate row", 0, 0, 0, 1, true, 255, false, 0,
    [255, 0, 0, 255, 0, 255, 0, 255]⟩

/-- Fixture: a 2×1 canvas document whose only layer is the y-degenerate
row layer. -/
def psdDegRow : Psd :=
  ⟨header2x1, ⟨[]⟩, ⟨[degRow]⟩, ⟨0, [0, 0, 0, 0, 0, 0, 0, 0]⟩⟩

/-- Fixture: a visible opaque red layer passing the built-in filter. -/
def visRed : PsdLayer :=
  ⟨"visible red", 0, 0, 1, 1, true, 255, false, 0, [255, 0, 0, 255]⟩

/-- Fixture: a layer that the built-in filter rejects: invisible, opacity 0
and no clipping mask. -/
def hiddenGray : PsdLayer :=
  ⟨"hidden gray", 0, 0, 1, 1, false, 0, false, 0, [9, 9, 9, 255]⟩

/-- Fixture: document with one selected and one rejected layer. -/
def psdC3a : Psd := ⟨header1x1, ⟨[]⟩, ⟨[visRed, hiddenGray]⟩, ⟨0, [1, 2, 3, 4]⟩⟩

/-- Fixture: document with only the selected layer and a different canvas
buffer, to witness that rejected layers and the canvas play no role once the
filtered candidate lists agree. -/
def psdC3b : Psd := ⟨header1x1, ⟨[]⟩, ⟨[visRed]⟩, ⟨0, [5, 6, 7, 8]⟩⟩

/-- Fixture: a fully opaque top candidate layer. -/
def layerC4 : PsdLayer :=
  ⟨"opaque layer", 0, 0, 1, 1, true, 255, false, 0, [7, 8, 9, 255]⟩

/-- Fixture: a candidate layer sitting below layerC4. -/
def blockerC4 : PsdLayer :=
  ⟨"lower layer", 0, 0, 1, 1, true, 255, false, 0, [1, 1, 1, 255]⟩

/-- Fixture: document holding the two layers of the short-circuit witness. -/
def psdC4 : Psd := ⟨header1x1, ⟨[]⟩, ⟨[layerC4, blockerC4]⟩, ⟨0, [0, 0, 0, 0]⟩⟩

/-- Fixture: a document with an empty layer list and a non-trivial canvas. -/
def psdC5 : Psd := ⟨header1x1, ⟨[]⟩, ⟨[]⟩, ⟨0, [1, 2, 3, 4]⟩⟩

/-- Fixture: a visible layer used with an all-rejecting caller predicate. -/
def layerC6 : PsdLayer :=
  ⟨"plain layer", 0, 0, 1, 1, true, 255, false, 0, [4, 4, 4, 255]⟩

/-- Fixture: document with one layer, flattened under an all-rejecting
predicate. -/
def psdC6 : Psd := ⟨header1x1, ⟨[]⟩, ⟨[layerC6]⟩, ⟨0, [1, 2, 3, 4]⟩⟩

/-- Fixture: a half-transparent top layer, so that per-pixel resolution
really recurses and the memo table is exercised. -/
def topHalfC7 : PsdLayer :=
  ⟨"half alpha", 0, 0, 1, 1, true, 128, false, 0, [0, 255, 0, 255]⟩

/-- Fixture: document with an opaque bottom layer under a half-transparent
top layer. -/
def psdC7 : Psd := ⟨header1x1, ⟨[]⟩, ⟨[bottomRed, topHalfC7]⟩, ⟨0, [0, 0, 0, 0]⟩⟩

/-- Fixture: single-layer document for the indexing contract. -/
def psdC9 : Psd := ⟨header1x1, ⟨[]⟩, ⟨[visRed]⟩, ⟨0, [0, 0, 0, 0]⟩⟩

/-- The empty memo table is consistent with any candidate list. -/
theorem cacheOk_nil (L : List (Nat × PsdLayer)) : CacheOk L [] := by
  intro j buf h
  simp [cache_lookup] at h

/-- Threading the memo table through flattened_pixel neither changes the
resolved pixel nor breaks table consistency: with any table consistent with
the full candidate list, the cached resolution of the suffix starting at idx
agrees with the cache-free resolution. -/
theorem flattened_pixel_eq_nocache (psd : Psd) (L : List (Nat × PsdLayer))
    (stack : List (Nat × PsdLayer)) :
    ∀ (idx : Nat) (coord : Nat × Nat) (cache : List (Nat × List Nat)),
      stack = L.drop idx → CacheOk L cache →
      (flattened_pixel psd idx coord stack cache).1 =
          flattened_pixel_nocache psd coord stack
        ∧ CacheOk L (flattened_pixel psd idx coord stack cache).2 := by
  induction stack with
  | nil =>
    intro idx coord cache hdrop hc
    exact ⟨rfl, hc⟩
  | cons head lower ih =>
    intro idx coord cache hdrop hc
    obtain ⟨si, layer⟩ := head
    have hget : L[idx]? = some (si, layer) := by
      have h0 : (L.drop idx)[0]? = L[idx + 0]? := List.getElem?_drop ..
      rw [← hdrop] at h0
      simpa using h0.symm
    have hlower : lower = L.drop (idx + 1) := by
      have ht : (L.drop idx).tail = L.drop (idx + 1) := List.tail_drop ..
      rw [← hdrop] at ht
      simpa using ht
    obtain ⟨hlt, hgetv⟩ := List.getElem?_eq_some.mp hget
    by_cases hob : coord.1 < layer.layer_left ∨ coord.1 > layer.layer_right
        ∨ coord.2 < layer.layer_top ∨ coord.2 > layer.layer_bottom
    · simp only [flattened_pixel, flattened_pixel_nocache]
      rw [if_pos hob, if_pos hob]
      cases lower with
      | nil => exact ⟨rfl, hc⟩
      | cons l2 rest2 => exact ih (idx + 1) coord cache hlower hc
    · have hcache1 :
          CacheOk L (if (cache_lookup idx cache).isNone then
              (idx, layer.rgba) :: cache else cache) := by
        cases hlk : cache_lookup idx cache with
        | none =>
          simp only [hlk, Option.isNone_none, if_pos]
          intro j buf hj
          by_cases hji : idx = j
          · subst hji
            simp only [cache_lookup, if_pos rfl] at hj
            refine ⟨hlt, ?_⟩
            rw [← Option.some_inj.mp hj, List.get_eq_getElem, hgetv]
          · simp only [cache_lookup, if_neg hji] at hj
            exact hc j buf hj
        | some buf0 =>
          simp only [hlk, Option.isNone_some, if_neg Bool.false_ne_true]
          exact hc
      have hbuf :
          cache_lookup idx (if (cache_lookup idx cache).isNone then
              (idx, layer.rgba) :: cache else cache) = some layer.rgba := by
        cases hlk : cache_lookup idx cache with
        | none => simp [hlk, cache_lookup]
        | some buf0 =>
          obtain ⟨hj, hv⟩ := hc idx buf0 hlk
          simp only [hlk, Option.isNone_some, if_neg Bool.false_ne_true]
          rw [hv, List.get_eq_getElem, hgetv]
      simp only [flattened_pixel, flattened_pixel_nocache]
      rw [if_neg hob, if_neg hob]
      rw [hbuf]
      simp only [Option.getD_some]
      by_cases hsc : (apply_opacity
          (read_pixel layer.rgba ((psd.width * coord.2 + coord.1) * 4)) layer.opacity).a = 255
          ∧ layer.opacity = 255
      · rw [if_pos hsc, if_pos hsc]
        exact ⟨rfl, hcache1⟩
      · rw [if_neg hsc, if_neg hsc]
        cases lower with
        | nil => exact ⟨rfl, hcache1⟩
        | cons l2 rest2 =>
          obtain ⟨h1, h2⟩ := ih (idx + 1) coord _ hlower hcache1
          exact ⟨by rw [h1], h2⟩

/-- The per-pixel loop with the memo table agrees with the cache-free loop
whenever it starts from a consistent table. -/
theorem flatten_pixels_eq_nocache (psd : Psd) (L : List (Nat × PsdLayer)) :
    ∀ (remaining start : Nat) (cache : List (Nat × List Nat)), CacheOk L cache →
      flatten_pixels psd L start remaining cache =
        flatten_pixels_nocache psd L start remaining := by
  intro remaining
  induction remaining with
  | zero => intro start cache hc; rfl
  | succ n ih =>
    intro start cache hc
    obtain ⟨h1, h2⟩ :=
      flattened_pixel_eq_nocache psd L L 0 (start % psd.width, start / psd.width) cache
        (List.drop_zero L).symm hc
    simp only [flatten_pixels, flatten_pixels_nocache]
    rw [h1, ih (start + 1) _ h2]

/-- flatten_layers_rgba coincides with its cache-free counterpart: the memo
table created inside the call is semantically inert. -/
theorem flatten_layers_rgba_eq_nocache (psd : Psd) (filter : Nat × PsdLayer → Bool) :
    flatten_layers_rgba psd filter = flatten_layers_rgba_nocache psd filter := by
  simp only [flatten_layers_rgba, flatten_layers_rgba_nocache]
  split
  · rfl
  · split
    · rfl
    · exact congrArg Except.ok
        (flatten_pixels_eq_nocache psd _ (psd.width * psd.height) 0 [] (cacheOk_nil _))

/-- The cache-free per-pixel resolution reads the document only through its
canvas width. -/
theorem flattened_pixel_nocache_width_eq (psd1 psd2 : Psd) (hw : psd1.width = psd2.width)
    (stack : List (Nat × PsdLayer)) :
    ∀ coord : Nat × Nat,
      flattened_pixel_nocache psd1 coord stack = flattened_pixel_nocache psd2 coord stack := by
  induction stack with
  | nil => intro coord; rfl
  | cons head lower ih =>
    intro coord
    obtain ⟨si, layer⟩ := head
    simp only [flattened_pixel_nocache, hw]
    cases lower with
    | nil => rfl
    | cons l2 rest2 => rw [ih coord]

/-- The cache-free pixel loop reads the document only through its canvas
width. -/
theorem flatten_pixels_nocache_width_eq (psd1 psd2 : Psd) (hw : psd1.width = psd2.width)
    (L : List (Nat × PsdLayer)) :
    ∀ remaining start : Nat,
      flatten_pixels_nocache psd1 L start remaining =
        flatten_pixels_nocache psd2 L start remaining := by
  intro remaining
  induction remaining with
  | zero => intro start; rfl
  | succ n ih =>
    intro start
    simp only [flatten_pixels_nocache, hw,
      flattened_pixel_nocache_width_eq psd1 psd2 hw L, ih]

/-- Membership in the filtered candidate list is exactly the built-in rule
((opacity > 0 and visible) or clipping mask) together with the caller
predicate, at the layer found at that stacking index. -/
theorem mem_layers_to_flatten (psd : Psd) (filter : Nat × PsdLayer → Bool)
    (idx : Nat) (layer : PsdLayer) :
    (idx, layer) ∈ layers_to_flatten_top_to_bottom psd filter ↔
      psd.layers[idx]? = some layer ∧
      ((layer.opacity > 0 ∧ layer.visible = true) ∨ layer.clipping_mask = true) ∧
      filter (idx, layer) = true := by
  unfold layers_to_flatten_top_to_bottom
  rw [List.mem_filter, List.mem_filter, List.mk_mem_enum_iff_getElem?]
  simp only [Bool.or_eq_true, Bool.and_eq_true, decide_eq_true_eq]
  tauto

/-- C1: the claim says flatten_layers_rgba reorders the filtered set
top-to-bottom (first element = highest stacking index) and resolves each
pixel from that topmost candidate downward.  The code does not reverse the
enumerated list, so the first candidate is the LOWEST stacking index:
evaluated on a 1×1 canvas with an opaque red bottom layer (index 0) under an
opaque green top layer (index 1), the candidate list starts with index 0 and
the flattened output is the bottom layer's red, not the topmost layer's
green.  This contradicts the code's own variable name
layers_to_flatten_top_to_bottom and its comments (lib.rs lines 198, 274). -/
theorem flatten_starts_at_bottom_layer :
    layers_to_flatten_top_to_bottom psdC1 (fun _ => true) = [(0, bottomRed), (1, topGreen)] ∧
    flatten_layers_rgba psdC1 (fun _ => true) = Except.ok [255, 0, 0, 255] ∧
    bottomRed.rgba = [255, 0, 0, 255] ∧ topGreen.rgba = [0, 255, 0, 255] := by
  refine ⟨?_, ?_, rfl, rfl⟩ <;> rfl

/-- C2 counterexample: the claim says a layer with a degenerate bounding
rectangle (left = right or top = bottom) contributes no pixels, so with no
layer below, the pixel at its nominal coordinates should be fully
transparent.  On a 1×1 canvas with a single visible opaque red layer whose
rectangle is left = right = 0, top = bottom = 0, the code returns the
layer's red at that pixel, not transparency. -/
theorem degenerate_rect_pixel_not_from_below :
    degRed.layer_left = degRed.layer_right ∧ degRed.layer_top = degRed.layer_bottom ∧
    flatten_layers_rgba psdDeg (fun _ => true) = Except.ok [255, 0, 0, 255] ∧
    flatten_layers_rgba psdDeg (fun _ => true) ≠ Except.ok [0, 0, 0, 0] := by
  refine ⟨rfl, rfl, rfl, ?_⟩
  intro h
  exact absurd (Except.ok.inj h) (by decide)

/-- C2 (amended): the per-pixel bounds test of flattened_pixel treats all
four rectangle edges inclusively, so (with the memo table consistent at this
candidate's key, as flatten maintains) a pixel defers to the next-lower
candidate (or is fully transparent when none remains) exactly when
pixel_left < left, pixel_left > right, pixel_top < top or
pixel_top > bottom, and otherwise is resolved from the candidate layer
itself (opacity-scaled, short-circuiting or blending as usual).
Consequently a degenerate layer still contributes pixels: with left = right
it resolves every pixel (left, t) with top ≤ t ≤ bottom from itself, and
with top = bottom every pixel (s, top) with left ≤ s ≤ right, rather than
deferring to the layers below. -/
theorem flattened_pixel_bounds_inclusive (psd : Psd) (idx si : Nat) (layer : PsdLayer)
    (lower : List (Nat × PsdLayer)) (cache : List (Nat × List Nat)) (pl pt : Nat)
    (hcache : ∀ buf, cache_lookup idx cache = some buf → buf = layer.rgba) :
    ((pl < layer.layer_left ∨ pl > layer.layer_right
        ∨ pt < layer.layer_top ∨ pt > layer.layer_bottom) →
      flattened_pixel psd idx (pl, pt) ((si, layer) :: lower) cache =
        match lower with
        | [] => (Pix.transparent, cache)
        | _ :: _ => flattened_pixel psd (idx + 1) (pl, pt) lower cache) ∧
    (¬(pl < layer.layer_left ∨ pl > layer.layer_right
        ∨ pt < layer.layer_top ∨ pt > layer.layer_bottom) →
      flattened_pixel psd idx (pl, pt) ((si, layer) :: lower) cache =
        resolve_from_this_layer psd idx layer lower cache pl pt) ∧
    (layer.layer_left = layer.layer_right →
      layer.layer_top ≤ pt → pt ≤ layer.layer_bottom →
      flattened_pixel psd idx (layer.layer_left, pt) ((si, layer) :: lower) cache =
        resolve_from_this_layer psd idx layer lower cache layer.layer_left pt) ∧
    (layer.layer_top = layer.layer_bottom →
      layer.layer_left ≤ pl → pl ≤ layer.layer_right →
      flattened_pixel psd idx (pl, layer.layer_top) ((si, layer) :: lower) cache =
        resolve_from_this_layer psd idx layer lower cache pl layer.layer_top) := by
  have hbuf : cache_lookup idx (if (cache_lookup idx cache).isNone then
      (idx, layer.rgba) :: cache else cache) = some layer.rgba := by
    cases hlk : cache_lookup idx cache with
    | none => simp [hlk, cache_lookup]
    | some buf0 =>
      simp only [hlk, Option.isNone_some, if_neg Bool.false_ne_true]
      rw [hcache buf0 hlk]
  have key : ∀ pl2 pt2, ¬(pl2 < layer.layer_left ∨ pl2 > layer.layer_right
      ∨ pt2 < layer.layer_top ∨ pt2 > layer.layer_bottom) →
      flattened_pixel psd idx (pl2, pt2) ((si, layer) :: lower) cache =
        resolve_from_this_layer psd idx layer lower cache pl2 pt2 := by
    intro pl2 pt2 hin
    simp only [flattened_pixel, resolve_from_this_layer]
    rw [if_neg hin, hbuf]
    simp only [Option.getD_some]
  refine ⟨?_, key pl pt, ?_, ?_⟩
  · intro hout
    simp only [flattened_pixel]
    rw [if_pos hout]
  · intro hdeg ht hb
    exact key layer.layer_left pt (by omega)
  · intro hdeg hl hr
    exact key pl layer.layer_top (by omega)

/-- Concrete instances of the inclusive-bounds theorem: a pixel strictly
right of the fully degenerate rectangle defers and, with no lower candidate,
is transparent; an x-degenerate (left = right, top < bottom) layer resolves
the pixel (0, 1) on its nominal column from itself (its opaque blue); a
y-degenerate (top = bottom, left < right) layer resolves the pixel (1, 0)
on its nominal row from itself (its opaque green). -/
theorem flattened_pixel_bounds_inclusive_witness :
    flattened_pixel psdDeg 0 (1, 0) [(0, degRed)] [] = (Pix.transparent, []) ∧
    flattened_pixel psdDegCol 0 (0, 1) [(0, degColumn)] [] =
      (⟨0, 0, 255, 255⟩, [(0, degColumn.rgba)]) ∧
    flattened_pixel psdDegRow 0 (1, 0) [(0, degRow)] [] =
      (⟨0, 255, 0, 255⟩, [(0, degRow.rgba)]) := by
  refine ⟨?_, ?_, ?_⟩
  · exact (flattened_pixel_bounds_inclusive psdDeg 0 0 degRed [] [] 1 0
      (fun buf h => by simp [cache_lookup] at h)).1 (by decide)
  · exact ((flattened_pixel_bounds_inclusive psdDegCol 0 0 degColumn [] [] 0 1
      (fun buf h => by simp [cache_lookup] at h)).2.2.1 rfl (by decide) (by decide)).trans rfl
  · exact ((flattened_pixel_bounds_inclusive psdDegRow 0 0 degRow [] [] 1 0
      (fun buf h => by simp [cache_lookup] at h)).2.2.2 rfl (by decide) (by decide)).trans rfl

/-- C3: flatten_layers_rgba considers exactly the layers selected by the
built-in rule ((opacity > 0 and visible) or clipping-mask) refined by the
caller predicate over (stack index, layer): membership in the candidate list
is equivalent to that conjunction, and any two documents of equal canvas
size and non-empty layer lists whose filtered candidate lists coincide
flatten to the same bytes, so no other layer affects the output. -/
theorem flatten_considers_exactly_filtered_layers (psd : Psd)
    (filter : Nat × PsdLayer → Bool) :
    (∀ idx layer, (idx, layer) ∈ layers_to_flatten_top_to_bottom psd filter ↔
        psd.layers[idx]? = some layer ∧
        ((layer.opacity > 0 ∧ layer.visible = true) ∨ layer.clipping_mask = true) ∧
        filter (idx, layer) = true) ∧
    (∀ (psd2 : Psd) (filter2 : Nat × PsdLayer → Bool),
        psd.width = psd2.width → psd.height = psd2.height →
        psd.layers ≠ [] → psd2.layers ≠ [] →
        layers_to_flatten_top_to_bottom psd filter =
          layers_to_flatten_top_to_bottom psd2 filter2 →
        flatten_layers_rgba psd filter = flatten_layers_rgba psd2 filter2) := by
  constructor
  · exact fun idx layer => mem_layers_to_flatten psd filter idx layer
  · intro psd2 filter2 hw hh h1 h2 hfl
    have e1 : psd.layers.isEmpty = false := by
      cases hE : psd.layers.isEmpty
      · rfl
      · exact absurd (List.isEmpty_iff.mp hE) h1
    have e2 : psd2.layers.isEmpty = false := by
      cases hE : psd2.layers.isEmpty
      · rfl
      · exact absurd (List.isEmpty_iff.mp hE) h2
    rw [flatten_layers_rgba_eq_nocache, flatten_layers_rgba_eq_nocache]
    simp only [flatten_layers_rgba_nocache, e1, e2, Bool.false_eq_true, if_false]
    rw [hfl, hw, hh, flatten_pixels_nocache_width_eq psd psd2 hw]

/-- Concrete instance: the selected layer is a member of the candidate list,
and a document that drops the rejected layer (and changes its canvas
buffer) flattens identically. -/
theorem flatten_considers_exactly_filtered_layers_witness :
    (0, visRed) ∈ layers_to_flatten_top_to_bottom psdC3a (fun _ => true) ∧
    flatten_layers_rgba psdC3a (fun _ => true) = flatten_layers_rgba psdC3b (fun _ => true) :=
  ⟨((flatten_considers_exactly_filtered_layers psdC3a (fun _ => true)).1 0 visRed).mpr
      ⟨rfl, by decide, rfl⟩,
    (flatten_considers_exactly_filtered_layers psdC3a (fun _ => true)).2 psdC3b
      (fun _ => true) rfl rfl (by decide) (by decide) rfl⟩

/-- C4: during per-pixel resolution, when the current candidate's pixel after
opacity scaling has alpha 255 and the layer's opacity is 255 (and the pixel
is inside the layer, reading the layer's own buffer whether memoized or
fresh), flattened_pixel returns that scaled pixel immediately, whatever the
list of lower candidates is: the result is independent of every layer
below. -/
theorem flattened_pixel_full_alpha_short_circuit (psd : Psd) (idx si : Nat)
    (layer : PsdLayer) (cache : List (Nat × List Nat)) (pl pt : Nat)
    (hin : ¬(pl < layer.layer_left ∨ pl > layer.layer_right
        ∨ pt < layer.layer_top ∨ pt > layer.layer_bottom))
    (hcache : ∀ buf, cache_lookup idx cache = some buf → buf = layer.rgba)
    (halpha : (apply_opacity (read_pixel layer.rgba ((psd.width * pt + pl) * 4))
        layer.opacity).a = 255)
    (hfull : layer.opacity = 255) :
    ∀ lower : List (Nat × PsdLayer),
      (flattened_pixel psd idx (pl, pt) ((si, layer) :: lower) cache).1 =
        apply_opacity (read_pixel layer.rgba ((psd.width * pt + pl) * 4)) layer.opacity := by
  intro lower
  have hbuf : cache_lookup idx (if (cache_lookup idx cache).isNone then
      (idx, layer.rgba) :: cache else cache) = some layer.rgba := by
    cases hlk : cache_lookup idx cache with
    | none => simp [hlk, cache_lookup]
    | some buf0 =>
      simp only [hlk, Option.isNone_some, if_neg Bool.false_ne_true]
      rw [hcache buf0 hlk]
  simp only [flattened_pixel]
  rw [if_neg hin, hbuf]
  simp only [Option.getD_some]
  rw [if_pos ⟨halpha, hfull⟩]

/-- Concrete instance: with a fully opaque top candidate over a lower
candidate, the resolved pixel is the top candidate's opacity-scaled pixel. -/
theorem flattened_pixel_full_alpha_short_circuit_witness :
    (flattened_pixel psdC4 0 (0, 0) [(0, layerC4), (1, blockerC4)] []).1 =
      apply_opacity (read_pixel layerC4.rgba ((psdC4.width * 0 + 0) * 4)) layerC4.opacity :=
  flattened_pixel_full_alpha_short_circuit psdC4 0 0 layerC4 [] 0 0 (by decide)
    (fun buf h => by simp [cache_lookup] at h) (by decide) rfl [(1, blockerC4)]

/-- C5: for a document whose layer list is empty, flatten_layers_rgba returns
exactly the whole-canvas RGBA for every predicate, and the predicate plays no
role: any two predicates give the same result. -/
theorem flatten_no_layers_is_rgba (psd : Psd) (filter : Nat × PsdLayer → Bool)
    (h : psd.layers = []) :
    flatten_layers_rgba psd filter = Except.ok psd.rgba ∧
    ∀ g : Nat × PsdLayer → Bool,
      flatten_layers_rgba psd filter = flatten_layers_rgba psd g := by
  have e : psd.layers.isEmpty = true := List.isEmpty_iff.mpr h
  constructor
  · simp [flatten_layers_rgba, e]
  · intro g
    simp [flatten_layers_rgba, e]

/-- Concrete instance: an empty-layer document flattens to its canvas RGBA
under the accept-all predicate, and equally under the reject-all one. -/
theorem flatten_no_layers_is_rgba_witness :
    flatten_layers_rgba psdC5 (fun _ => true) = Except.ok psdC5.rgba ∧
    flatten_layers_rgba psdC5 (fun _ => true) = flatten_layers_rgba psdC5 (fun _ => false) :=
  ⟨(flatten_no_layers_is_rgba psdC5 (fun _ => true) rfl).1,
    (flatten_no_layers_is_rgba psdC5 (fun _ => true) rfl).2 (fun _ => false)⟩

/-- C6: for a document with a non-empty layer list whose filtered candidate
list is empty, flatten_layers_rgba returns the all-zero buffer of length
width * height * 4. -/
theorem flatten_empty_filtered_set_transparent (psd : Psd)
    (filter : Nat × PsdLayer → Bool) (h1 : psd.layers ≠ [])
    (h2 : layers_to_flatten_top_to_bottom psd filter = []) :
    flatten_layers_rgba psd filter =
      Except.ok (List.replicate (psd.width * psd.height * 4) 0) := by
  have e1 : psd.layers.isEmpty = false := by
    cases hE : psd.layers.isEmpty
    · rfl
    · exact absurd (List.isEmpty_iff.mp hE) h1
  simp [flatten_layers_rgba, e1, h2]

/-- Concrete instance: a one-layer document under the reject-all predicate
yields the 4-byte all-zero buffer of its 1×1 canvas. -/
theorem flatten_empty_filtered_set_transparent_witness :
    flatten_layers_rgba psdC6 (fun _ => false) =
      Except.ok (List.replicate (psdC6.width * psdC6.height * 4) 0) :=
  flatten_empty_filtered_set_transparent psdC6 (fun _ => false) (by decide) rfl

/-- C7: flatten_layers_rgba is a pure function of the document and the
predicate — two calls with the same arguments return byte-for-byte identical
output — and it coincides with the cache-free variant, which is the sense in
which the memo table created inside each call never changes the output and
cannot leak between calls. -/
theorem flatten_call_local_cache_idempotent (psd : Psd)
    (filter : Nat × PsdLayer → Bool) :
    (∀ out1 out2 : Except PsdError (List Nat),
        flatten_layers_rgba psd filter = out1 → flatten_layers_rgba psd filter = out2 →
        out1 = out2) ∧
    flatten_layers_rgba psd filter = flatten_layers_rgba_nocache psd filter :=
  ⟨fun _ _ ha hb => ha.symm.trans hb, flatten_layers_rgba_eq_nocache psd filter⟩

/-- Concrete instance, on a document whose top candidate is half-transparent
so the memo table really is consulted. -/
theorem flatten_call_local_cache_idempotent_witness :
    flatten_layers_rgba psdC7 (fun _ => true) = flatten_layers_rgba psdC7 (fun _ => true) ∧
    flatten_layers_rgba psdC7 (fun _ => true) =
      flatten_layers_rgba_nocache psdC7 (fun _ => true) :=
  ⟨(flatten_call_local_cache_idempotent psdC7 (fun _ => true)).1 _ _ rfl rfl,
    (flatten_call_local_cache_idempotent psdC7 (fun _ => true)).2⟩

/-- C9: the layer_by_idx accessor returns the layer at the requested stacking
position whenever the index is below the layer-list length, and is fatal
(the unwrap of a missing element, modelled as none) for any index at or
beyond the length — never a recoverable value. -/
theorem layer_by_idx_contract (psd : Psd) (idx : Nat) :
    (∀ h : idx < psd.layers.length,
        psd.layer_by_idx idx = some (psd.layers.get ⟨idx, h⟩)) ∧
    (psd.layers.length ≤ idx → psd.layer_by_idx idx = none) := by
  constructor
  · intro h
    simp [Psd.layer_by_idx, List.getElem?_eq_getElem h]
  · intro h
    simp [Psd.layer_by_idx, List.getElem?_eq_none h]

/-- Concrete instance: index 0 of a one-layer document is its layer, index 3
is the modelled panic. -/
theorem layer_by_idx_contract_witness :
    psdC9.layer_by_idx 0 = some (psdC9.layers.get ⟨0, by decide⟩) ∧
    psdC9.layer_by_idx 3 = none :=
  ⟨(layer_by_idx_contract psdC9 0).1 (by decide), (layer_by_idx_contract psdC9 3).2 (by decide)⟩

/-- C10: despite its Except return type, flatten_layers_rgba returns ok on
every document and predicate: each of its three branches produces ok and no
path produces an error. -/
theorem flatten_layers_rgba_always_ok (psd : Psd) (filter : Nat × PsdLayer → Bool) :
    ∃ out : List Nat, flatten_layers_rgba psd filter = Except.ok out := by
  simp only [flatten_layers_rgba]
  split
  · exact ⟨_, rfl⟩
  · split
    · exact ⟨_, rfl⟩
    · exact ⟨_, rfl⟩

/-- C8: Psd::from_bytes either succeeds with a document assembled from the
successful results of all five section parsers — never a partial document —
or fails with the typed PsdError variant wrapping exactly the error of the
first section parser that failed, in parse order. -/
theorem from_bytes_fully_constructed_or_typed_error (P : SectionParsers)
    (bytes : List Nat) :
    (∃ ms fh lm imgd ir,
        P.majorSections bytes = .ok ms ∧
        P.fileHeader ms.file_header = .ok fh ∧
        P.layerAndMask ms.layer_and_mask fh.width fh.height = .ok lm ∧
        P.imageData ms.image_data fh.depth fh.height fh.channel_count = .ok imgd ∧
        P.imageResources ms.image_resources = .ok ir ∧
        Psd.from_bytes P bytes = .ok ⟨fh, ir, lm, imgd⟩) ∨
    (∃ e, Psd.from_bytes P bytes = .error e ∧
        ((∃ he, P.majorSections bytes = .error he ∧ e = .HeaderError he) ∨
         (∃ ms he, P.majorSections bytes = .ok ms ∧
            P.fileHeader ms.file_header = .error he ∧ e = .HeaderError he) ∨
         (∃ ms fh le, P.majorSections bytes = .ok ms ∧
            P.fileHeader ms.file_header = .ok fh ∧
            P.layerAndMask ms.layer_and_mask fh.width fh.height = .error le ∧
            e = .LayerError le) ∨
         (∃ ms fh lm ie, P.majorSections bytes = .ok ms ∧
            P.fileHeader ms.file_header = .ok fh ∧
            P.layerAndMask ms.layer_and_mask fh.width fh.height = .ok lm ∧
            P.imageData ms.image_data fh.depth fh.height fh.channel_count = .error ie ∧
            e = .ImageError ie) ∨
         (∃ ms fh lm imgd re, P.majorSections bytes = .ok ms ∧
            P.fileHeader ms.file_header = .ok fh ∧
            P.layerAndMask ms.layer_and_mask fh.width fh.height = .ok lm ∧
            P.imageData ms.image_data fh.depth fh.height fh.channel_count = .ok imgd ∧
            P.imageResources ms.image_resources = .error re ∧
            e = .ResourceError re))) := by
  cases hms : P.majorSections bytes with
  | error e =>
    exact Or.inr ⟨.HeaderError e, by simp [Psd.from_bytes, hms], Or.inl ⟨e, rfl, rfl⟩⟩
  | ok ms =>
    cases hfh : P.fileHeader ms.file_header with
    | error e =>
      exact Or.inr ⟨.HeaderError e, by simp [Psd.from_bytes, hms, hfh],
        Or.inr (Or.inl ⟨ms, e, rfl, hfh, rfl⟩)⟩
    | ok fh =>
      cases hlm : P.layerAndMask ms.layer_and_mask fh.width fh.height with
      | error e =>
        exact Or.inr ⟨.LayerError e, by simp [Psd.from_bytes, hms, hfh, hlm],
          Or.inr (Or.inr (Or.inl ⟨ms, fh, e, rfl, hfh, hlm, rfl⟩))⟩
      | ok lm =>
        cases himg : P.imageData ms.image_data fh.depth fh.height fh.channel_count with
        | error e =>
          exact Or.inr ⟨.ImageError e, by simp [Psd.from_bytes, hms, hfh, hlm, himg],
            Or.inr (Or.inr (Or.inr (Or.inl ⟨ms, fh, lm, e, rfl, hfh, hlm, himg, rfl⟩)))⟩
        | ok imgd =>
          cases hir : P.imageResources ms.image_resources with
          | error e =>
            exact Or.inr ⟨.ResourceError e,
              by simp [Psd.from_bytes, hms, hfh, hlm, himg, hir],
              Or.inr (Or.inr (Or.inr (Or.inr
                ⟨ms, fh, lm, imgd, e, rfl, hfh, hlm, himg, hir, rfl⟩)))⟩
          | ok ir =>
            exact Or.inl ⟨ms, fh, lm, imgd, ir, rfl, hfh, hlm, himg, hir,
              by simp [Psd.from_bytes, hms, hfh, hlm, himg, hir]⟩
